import Mathlib

/-!
Shallow embedding of the golf round tracker repository.  The repository has
two variants of the same application: a tkinter desktop program
(TB TimeTrack, namespace `TimeTrack`) that keeps active rounds in the
dictionary `player_data` and appends finished rounds to a daily text log,
and a Streamlit web app (steamlit_app.py, namespace `WebApp`) that keeps an
"Active" worksheet and an append-only "Records" worksheet in a Google
spreadsheet.

Modelling conventions:
  Python floor division and modulo are `Int.fdiv` / `Int.fmod`; truncating
  `int()` conversion of an exact quotient is `Int.tdiv`.  Desktop
  timestamps are minute-granular (they are parsed back from strings
  rendered by strftime at minute precision).  Web timestamps carry a
  calendar day, a second of day and a microsecond field, matching aware
  Python datetimes; the `isoformat` helper drops the microsecond before
  rendering, and `datetime.fromisoformat` inverts the rendering, so a
  stored ISO string is modelled by the truncated datetime it denotes.
-/

/-- Whitespace characters removed by Python str.strip (ASCII subset). -/
def isPySpace (c : Char) : Bool :=
  c = ' ' || c = '\t' || c = '\n' || c = '\r' || c = '\x0b' || c = '\x0c'

/-- Python str.strip on the underlying character list. -/
def pyStripL (s : List Char) : List Char :=
  ((s.dropWhile isPySpace).reverse.dropWhile isPySpace).reverse

/-- Python str.strip. -/
def pyStrip (s : String) : String := ⟨pyStripL s.data⟩

/-- Python str.isdigit (ASCII digits): nonempty and all digits. -/
def pyIsDigit (s : String) : Bool := !s.data.isEmpty && s.data.all Char.isDigit

/-- Python int() applied to a digit string. -/
def strToNat (s : String) : Nat := s.data.foldl (fun a c => a * 10 + (c.toNat - 48)) 0

/-- Python str.upper (ASCII). -/
def pyUpper (s : String) : String := ⟨s.data.map Char.toUpper⟩

/-- Relation between two successive values of a persisted list when records
already present are neither mutated nor deleted: the new value extends the
old one on the right. -/
def appendOnly {α : Type} (old new : List α) : Prop := ∃ tail, new = old ++ tail

namespace TimeTrack

/-- Timestamp at minute granularity, as parsed back from the stored
"%Y-%m-%d %I:%M %p" strings: a calendar day index and the minute of day. -/
structure CivilMin where
  day : Int
  minute : Nat
  deriving DecidableEq

/-- Total minutes denoted by a `CivilMin` timestamp. -/
def CivilMin.total (t : CivilMin) : Int := t.day * 1440 + t.minute

/-- Value stored in player_data for one golfer: the dictionary literal built
by start_round_auto / start_round_manual.  The "end" field is `none` while
the round is active. -/
structure PRound where
  holes : String
  busy : String
  transport : String
  players : String
  start : CivilMin
  endT : Option CivilMin
  deriving DecidableEq

/-- Python dict lookup on the insertion-ordered association list. -/
def dictGet (d : List (String × PRound)) (k : String) : Option PRound :=
  match d with
  | [] => none
  | (k2, v) :: rest => if k2 = k then some v else dictGet rest k

/-- Python dict assignment: replace the value in place when the key exists,
append a new binding otherwise. -/
def dictSet (d : List (String × PRound)) (k : String) (v : PRound) :
    List (String × PRound) :=
  match d with
  | [] => [(k, v)]
  | (k2, v2) :: rest => if k2 = k then (k2, v) :: rest else (k2, v2) :: dictSet rest k v

/-- Elapsed-time rendering inside save_to_file: duration.total_seconds()
followed by divmod of the total by 3600 and floor division of the remainder
by 60, printed as hours and minutes. -/
def time_on_course (startT endv : CivilMin) : String :=
  let total : Int := 60 * (endv.total - startT.total)
  let hours : Int := Int.fdiv total 3600
  let remainder : Int := Int.fmod total 3600
  let minutes : Int := Int.fdiv remainder 60
  toString hours ++ "h " ++ toString minutes ++ "m"

/-- One line appended to the daily log file, modelled by its fields in the
order they are printed. -/
structure LogLine where
  name : String
  players : String
  holes : String
  busy : String
  start : CivilMin
  endT : CivilMin
  time_on_course : String
  transport : String
  deriving DecidableEq

/-- Log line written by save_to_file for a golfer; the `CivilMin` argument
is the value the caller just stored in the "end" field. -/
def save_to_file (name : String) (data : PRound) (endv : CivilMin) : LogLine :=
  { name := name, players := data.players, holes := data.holes, busy := data.busy,
    start := data.start, endT := endv,
    time_on_course := time_on_course data.start endv,
    transport := data.transport }

/-- Mutable module state of the desktop program: the player_data dictionary,
the accumulated log-file lines, and the status label text. -/
structure TkState where
  player_data : List (String × PRound)
  log : List LogLine
  status : String
  deriving DecidableEq

/-- Handler of the "Start Round (Now)" button. -/
def start_round_auto (s : TkState) (rawName holes busy transport players : String)
    (now : CivilMin) : TkState :=
  let name := pyStrip rawName
  if name = "" then
    { s with status := "Enter a player name." }
  else
    { s with
      player_data := dictSet s.player_data name
        { holes := holes, busy := busy, transport := transport, players := players,
          start := now, endT := none },
      status := "Auto started round for " ++ name }

/-- Handler of the "End Round (Now)" button. -/
def end_round_auto (s : TkState) (selected : String) (now : CivilMin) : TkState :=
  match dictGet s.player_data selected with
  | some r =>
    if r.endT = none then
      let r2 := { r with endT := some now }
      { player_data := dictSet s.player_data selected r2,
        log := s.log ++ [save_to_file selected r2 now],
        status := "Auto ended round for " ++ selected }
    else { s with status := "Invalid golfer selected." }
  | none => { s with status := "Invalid golfer selected." }

/-- Python datetime.replace applied to the current time with a new hour and
minute and second set to 0: it raises ValueError outside the valid field
ranges, and otherwise keeps the calendar day of the receiver. -/
def datetimeReplace (now : CivilMin) (hour minute : Nat) : Except String CivilMin :=
  if hour ≤ 23 && minute ≤ 59 then .ok ⟨now.day, hour * 60 + minute⟩
  else .error "ValueError"

/-- Handler of the "Start Round (Manual)" button.  An exception escaping the
handler is returned as an error value; no state was mutated at that point. -/
def start_round_manual (s : TkState) (rawName hourStr minuteStr ampm : String)
    (holes busy transport players : String) (now : CivilMin) :
    Except String TkState :=
  let name := pyStrip rawName
  let hour := pyStrip hourStr
  let minute := pyStrip minuteStr
  if name ≠ "" ∧ pyIsDigit hour ∧ pyIsDigit minute then
    let hour12 := strToNat hour % 12 + (if ampm = "PM" then 12 else 0)
    match datetimeReplace now hour12 (strToNat minute) with
    | .error e => .error e
    | .ok startT =>
      .ok { s with
        player_data := dictSet s.player_data name
          { holes := holes, busy := busy, transport := transport, players := players,
            start := startT, endT := none },
        status := "Manual started round for " ++ name }
  else .ok { s with status := "Enter valid name and time." }

/-- Handler of the "End Round (Manual)" button. -/
def end_round_manual (s : TkState) (selected hourStr minuteStr ampm : String)
    (now : CivilMin) : Except String TkState :=
  let hour := pyStrip hourStr
  let minute := pyStrip minuteStr
  match dictGet s.player_data selected with
  | some r =>
    if r.endT = none ∧ pyIsDigit hour ∧ pyIsDigit minute then
      let hour12 := strToNat hour % 12 + (if ampm = "PM" then 12 else 0)
      match datetimeReplace now hour12 (strToNat minute) with
      | .error e => .error e
      | .ok endv =>
        let r2 := { r with endT := some endv }
        .ok { player_data := dictSet s.player_data selected r2,
              log := s.log ++ [save_to_file selected r2 endv],
              status := "Manual ended round for " ++ selected }
    else .ok { s with status := "Enter valid time and golfer." }
  | none => .ok { s with status := "Enter valid time and golfer." }

/-- Membership test performed by the end handlers: the selected name has an
entry whose "end" field is still None, i.e. an active round. -/
def isActiveName (d : List (String × PRound)) (n : String) : Bool :=
  match dictGet d n with
  | some r => r.endT.isNone
  | none => false

/-- One user action of the desktop program.  `refresh` stands for the
read-only handlers update_active_dropdown, refresh_active_list and
view_log. -/
inductive TkOp where
  | startAuto (rawName holes busy transport players : String) (now : CivilMin)
  | startManual (rawName hourStr minuteStr ampm holes busy transport players : String)
      (now : CivilMin)
  | endAuto (selected : String) (now : CivilMin)
  | endManual (selected hourStr minuteStr ampm : String) (now : CivilMin)
  | refresh

/-- Effect of one user action on the module state.  An uncaught exception
aborts the handler before any state mutation, leaving the state as it was. -/
def applyTk (op : TkOp) (s : TkState) : TkState :=
  match op with
  | .startAuto n h b t p now => start_round_auto s n h b t p now
  | .startManual n hh mm ap h b t p now =>
    match start_round_manual s n hh mm ap h b t p now with
    | .ok s2 => s2
    | .error _ => s
  | .endAuto sel now => end_round_auto s sel now
  | .endManual sel hh mm ap now =>
    match end_round_manual s sel hh mm ap now with
    | .ok s2 => s2
    | .error _ => s
  | .refresh => s

end TimeTrack

namespace WebApp

/-- Python aware datetime: calendar day index, second of day, microsecond. -/
structure PyDateTime where
  day : Int
  sec : Nat
  usec : Nat
  deriving DecidableEq

/-- Microsecond count denoted by the datetime, used for subtraction. -/
def microsOf (t : PyDateTime) : Int :=
  (t.day * 86400 + (t.sec : Int)) * 1000000 + (t.usec : Int)

/-- Python int((a - b).total_seconds()): the exact difference in seconds
truncated toward zero. -/
def total_seconds_int (a b : PyDateTime) : Int :=
  Int.tdiv (microsOf a - microsOf b) 1000000

/-- Value denoted by the string produced by the isoformat helper, which
drops the microsecond field before rendering; datetime.fromisoformat
inverts the rendering. -/
def isoformat (t : PyDateTime) : PyDateTime := { t with usec := 0 }

/-- Zero padding to two digits, as done by the 02d f-string format. -/
def pad2 (n : Nat) : String := if n < 10 then "0" ++ toString n else toString n

/-- fmt_hms from the web app: clamp a negative total to zero, then render
hours, minutes and seconds, each zero padded to two digits. -/
def fmt_hms (total_seconds : Int) : String :=
  let t : Nat := (if total_seconds < 0 then 0 else total_seconds).toNat
  pad2 (t / 3600) ++ ":" ++ pad2 (t % 3600 / 60) ++ ":" ++ pad2 (t % 60)

/-- Data row of the Active worksheet: Date, Name, Group Size, Transport,
Start Time. -/
structure ActiveRow where
  date : Int
  name : String
  groupSize : Int
  transport : String
  start : PyDateTime
  deriving DecidableEq

/-- Data row of the Records worksheet. -/
structure RecordRow where
  date : Int
  name : String
  groupSize : Int
  transport : String
  start : PyDateTime
  endT : PyDateTime
  totalElapsed : String
  deriving DecidableEq

/-- Contents of the two worksheets (data rows, header excluded). -/
structure SheetState where
  active : List ActiveRow
  records : List RecordRow
  deriving DecidableEq

/-- append_active: one row appended to the Active worksheet. -/
def append_active (s : SheetState) (name : String) (group_size : Int)
    (transport : String) (start_dt : PyDateTime) : SheetState :=
  { s with active := s.active ++
      [{ date := start_dt.day, name := name, groupSize := group_size,
         transport := transport, start := isoformat start_dt }] }

/-- append_record: one row appended to the Records worksheet, with the
elapsed time rendered by fmt_hms from the truncated total seconds. -/
def append_record (s : SheetState) (date : Int) (name : String) (group_size : Int)
    (transport : String) (start_dt end_dt : PyDateTime) : SheetState :=
  { s with records := s.records ++
      [{ date := date, name := name, groupSize := group_size, transport := transport,
         start := isoformat start_dt, endT := isoformat end_dt,
         totalElapsed := fmt_hms (total_seconds_int end_dt start_dt) }] }

/-- delete_active_row acting on the list of data rows. -/
def delete_active_row (s : SheetState) (i : Nat) : SheetState :=
  { s with active := s.active.eraseIdx i }

/-- combine_today: today's date joined with an hour and a minute, second 0. -/
def combine_today (today : Int) (hour minute : Nat) : PyDateTime :=
  { day := today, sec := hour * 3600 + minute * 60, usec := 0 }

/-- to_24h: a 12-hour clock reading with AM/PM converted to 24-hour form. -/
def to_24h (hour12 minute : Nat) (ampm : String) : Nat × Nat :=
  (hour12 % 12 + (if pyUpper ampm = "PM" then 12 else 0), minute)

/-- Names bound at the top level of steamlit_app.py: the import aliases and
every module-level def and assignment target, in source order.  ZoneInfo is
not among them, nor is ZoneInfo a Python builtin. -/
def moduleGlobals : List String :=
  ["st", "pd", "datetime", "date", "dtime", "gspread", "Credentials",
   "components", "re",
   "SERVICE_INFO", "SHEET_URL", "SCOPES", "creds", "client",
   "extract_sheet_id", "sheet_id", "ss", "ACTIVE_COLS", "RECORD_COLS",
   "col_range", "get_or_create_ws", "ws_active", "ws_records",
   "parse_iso", "isoformat", "fmt_hms", "read_active_df", "append_active",
   "append_record", "delete_active_row", "combine_today", "to_24h",
   "default_12h_now", "read_records_today_df",
   "df_active", "col_name", "col_group", "name", "group_size", "transport",
   "mode_add", "h12_def", "m_def", "ampm_def", "c1", "c2", "c3",
   "start_hour12", "start_minute", "start_ampm", "b_now", "b_manual",
   "start_now_clicked", "start_manual_clicked", "start_dt", "hh24", "mm",
   "df_active_display", "rows_html", "r", "st_dt", "start_ts",
   "rows_html_str", "html", "df_active_for_end", "options", "idx",
   "sheet_row", "st_label", "label", "choice", "mode_end",
   "eh12_def", "em_def", "eampm_def", "e1", "e2", "e3",
   "end_hour12", "end_minute", "end_ampm", "end_now_clicked",
   "end_manual_clicked", "row_vals", "date_str", "start_str", "h24",
   "end_dt", "colA", "today_df", "show_cols", "total_rounds",
   "total_players", "csv_bytes", "_"]

/-- Result of evaluating a handler body: a value, or an uncaught NameError
for a name missing from the module globals. -/
inductive PyEval (α : Type) where
  | ok (a : α)
  | nameError (missing : String)
  deriving DecidableEq

/-- Evaluation of the expression datetime.now applied to a ZoneInfo value:
resolving the name ZoneInfo in the module globals comes first; the wall
clock value the call would return is passed in as an argument. -/
def datetimeNowNY (now : PyDateTime) : PyEval PyDateTime :=
  if moduleGlobals.contains "ZoneInfo" then .ok now else .nameError "ZoneInfo"

/-- Body of the "Start Round (Now)" handler. -/
def startNowHandler (s : SheetState) (name : String) (group_size : Int)
    (transport : String) (now : PyDateTime) : PyEval SheetState :=
  if pyStrip name = "" then .ok s
  else
    match datetimeNowNY now with
    | .nameError m => .nameError m
    | .ok dt => .ok (append_active s (pyStrip name) group_size transport dt)

/-- Body of the "Start Round (Manual)" handler in Manual-time mode: the
selected hour, minute and AM/PM go through to_24h and combine_today. -/
def startManualHandler (s : SheetState) (name : String) (group_size : Int)
    (transport : String) (hour12 minute : Nat) (ampm : String) (today : Int) :
    SheetState :=
  if pyStrip name = "" then s
  else
    let hm := to_24h hour12 minute ampm
    append_active s (pyStrip name) group_size transport (combine_today today hm.1 hm.2)

/-- Body of the End Round handler once an end time is in hand: the selected
Active row is read back, a completed row is appended to Records, and the
Active row is deleted, in that order within one handler run. -/
def endRoundWith (s : SheetState) (i : Nat) (end_dt : PyDateTime) : SheetState :=
  match s.active[i]? with
  | none => s
  | some r => delete_active_row
      (append_record s r.date r.name r.groupSize r.transport r.start end_dt) i

/-- Body of the "End Round (Now)" handler: the stored start time parses, so
the short-circuiting `or` skips its fallback, and the end time is obtained
from datetime.now applied to a ZoneInfo value. -/
def endNowHandler (s : SheetState) (i : Nat) (now : PyDateTime) : PyEval SheetState :=
  match s.active[i]? with
  | none => .ok s
  | some _ =>
    match datetimeNowNY now with
    | .nameError m => .nameError m
    | .ok dt => .ok (endRoundWith s i dt)

/-- Elapsed recomputation applied to every row by read_records_today_df:
both timestamps parse, so Total Elapsed is overwritten with the rendering
of their difference. -/
def recomputeElapsed (r : RecordRow) : RecordRow :=
  { r with totalElapsed := fmt_hms (total_seconds_int r.endT r.start) }

/-- read_records_today_df: keep the rows dated today and recompute their
Total Elapsed from the parsed timestamps. -/
def read_records_today_df (s : SheetState) (today : Int) : List RecordRow :=
  (s.records.filter (fun r => r.date == today)).map recomputeElapsed

/-- One user action of the web app, as the handler bodies are written.
`readOnly` stands for the display, refresh and history sections, which
only read the worksheets. -/
inductive SOp where
  | startNow (name : String) (gs : Int) (tr : String) (now : PyDateTime)
  | startManual (name : String) (gs : Int) (tr : String) (h12 m : Nat)
      (ampm : String) (today : Int)
  | endNow (i : Nat) (now : PyDateTime)
  | endManual (i : Nat) (h12 m : Nat) (ampm : String) (today : Int)
  | readOnly

/-- Effect of one action on the worksheets.  A NameError aborts the handler
with the sheets untouched. -/
def applySheet (op : SOp) (s : SheetState) : SheetState :=
  match op with
  | .startNow n g t now =>
    match startNowHandler s n g t now with
    | .ok s2 => s2
    | .nameError _ => s
  | .startManual n g t h12 m ap today => startManualHandler s n g t h12 m ap today
  | .endNow i now =>
    match endNowHandler s i now with
    | .ok s2 => s2
    | .nameError _ => s
  | .endManual i h12 m ap today =>
    let hm := to_24h h12 m ap
    endRoundWith s i (combine_today today hm.1 hm.2)
  | .readOnly => s

end WebApp

deriving instance DecidableEq for Except

/-! Helper lemmas. -/

theorem dictGet_dictSet_self (d : List (String × TimeTrack.PRound)) (k : String)
    (v : TimeTrack.PRound) :
    TimeTrack.dictGet (TimeTrack.dictSet d k v) k = some v := by
  induction d with
  | nil => simp [TimeTrack.dictSet, TimeTrack.dictGet]
  | cons kv rest ih =>
    obtain ⟨k2, v2⟩ := kv
    by_cases h : k2 = k <;> simp [TimeTrack.dictSet, TimeTrack.dictGet, h, ih]

theorem pyStrip_eq_empty_of_all_space (s : String)
    (h : s.data.all isPySpace = true) : pyStrip s = "" := by
  have h1 : s.data.dropWhile isPySpace = [] := by
    rw [List.dropWhile_eq_nil_iff]
    intro x hx
    exact List.all_eq_true.mp h x hx
  simp [pyStrip, pyStripL, h1]

theorem appendOnly_refl {α : Type} (l : List α) : appendOnly l l :=
  ⟨[], by simp⟩

theorem appendOnly_concat {α : Type} (l t : List α) : appendOnly l (l ++ t) :=
  ⟨t, rfl⟩

/-! Claim C1. -/

/-- C1 counterexample: with a round for Alice already active, a second
start_round for Alice does not fail: the desktop handler reports success
and the active collection changes, the stored start time being replaced by
the new one.  No DuplicateActiveRoundError is raised anywhere. -/
theorem C1_counterexample :
    (TimeTrack.start_round_auto
        { player_data := [("Alice",
            { holes := "18", busy := "Light", transport := "Cart", players := "1",
              start := { day := 0, minute := 540 }, endT := none })],
          log := [], status := "" }
        "Alice" "18" "Light" "Cart" "1" { day := 0, minute := 600 }).status =
      "Auto started round for Alice" ∧
    (TimeTrack.start_round_auto
        { player_data := [("Alice",
            { holes := "18", busy := "Light", transport := "Cart", players := "1",
              start := { day := 0, minute := 540 }, endT := none })],
          log := [], status := "" }
        "Alice" "18" "Light" "Cart" "1" { day := 0, minute := 600 }).player_data =
      [("Alice",
          { holes := "18", busy := "Light", transport := "Cart", players := "1",
            start := { day := 0, minute := 600 }, endT := none })] ∧
    ([("Alice",
        { holes := "18", busy := "Light", transport := "Cart", players := "1",
          start := { day := 0, minute := 600 }, endT := none })] :
        List (String × TimeTrack.PRound)) ≠
      [("Alice",
          { holes := "18", busy := "Light", transport := "Cart", players := "1",
            start := { day := 0, minute := 540 }, endT := none })] := by
  refine ⟨?_, ?_, ?_⟩ <;> decide

/-- C1 amended: start_round performs no duplicate check in either variant.
For any name that is nonempty after stripping, the desktop handler succeeds
and overwrites whatever round that name already has in player_data, and the
web append_active unconditionally appends one more Active row, so several
active rows may share one name; no DuplicateActiveRoundError exists. -/
theorem C1_no_duplicate_check (s : TimeTrack.TkState)
    (rawName holes busy transport players : String) (now : TimeTrack.CivilMin)
    (h : pyStrip rawName ≠ "")
    (w : WebApp.SheetState) (n : String) (g : Int) (t : String)
    (d : WebApp.PyDateTime) :
    (TimeTrack.start_round_auto s rawName holes busy transport players now).status =
      "Auto started round for " ++ pyStrip rawName ∧
    TimeTrack.dictGet
        (TimeTrack.start_round_auto s rawName holes busy transport players
          now).player_data (pyStrip rawName) =
      some { holes := holes, busy := busy, transport := transport, players := players,
             start := now, endT := none } ∧
    (WebApp.append_active w n g t d).active =
      w.active ++ [{ date := d.day, name := n, groupSize := g, transport := t,
                     start := WebApp.isoformat d }] := by
  refine ⟨?_, ?_, rfl⟩ <;>
    simp [TimeTrack.start_round_auto, h, dictGet_dictSet_self]

/-- C1 witness: the amended theorem at a concrete input. -/
theorem C1_witness :
    pyStrip "Bob" ≠ "" ∧
    ((TimeTrack.start_round_auto ⟨[], [], ""⟩ "Bob" "9" "Light" "Walking" "2"
        { day := 1, minute := 60 }).status =
        "Auto started round for " ++ pyStrip "Bob" ∧
     TimeTrack.dictGet
        (TimeTrack.start_round_auto ⟨[], [], ""⟩ "Bob" "9" "Light" "Walking" "2"
          { day := 1, minute := 60 }).player_data (pyStrip "Bob") =
       some { holes := "9", busy := "Light", transport := "Walking", players := "2",
              start := { day := 1, minute := 60 }, endT := none } ∧
     (WebApp.append_active ⟨[], []⟩ "Bob" 2 "Walking" ⟨1, 3600, 5⟩).active =
       (⟨[], []⟩ : WebApp.SheetState).active ++
         [{ date := 1, name := "Bob", groupSize := 2, transport := "Walking",
            start := WebApp.isoformat ⟨1, 3600, 5⟩ }]) :=
  ⟨by decide,
   C1_no_duplicate_check ⟨[], [], ""⟩ "Bob" "9" "Light" "Walking" "2"
     { day := 1, minute := 60 } (by decide) ⟨[], []⟩ "Bob" 2 "Walking" ⟨1, 3600, 5⟩⟩

/-! Claim C5. -/

/-- C5: ending a round for a name with no active round (never started, or
already ended) fails with the invalid-golfer status message in both end
handlers, and neither the player_data dictionary (the active collection)
nor the log (the history collection) changes. -/
theorem C5_no_active_fails (s : TimeTrack.TkState) (sel : String)
    (now : TimeTrack.CivilMin) (hourStr minuteStr ampm : String)
    (h : TimeTrack.isActiveName s.player_data sel = false) :
    TimeTrack.end_round_auto s sel now =
      { s with status := "Invalid golfer selected." } ∧
    TimeTrack.end_round_manual s sel hourStr minuteStr ampm now =
      .ok { s with status := "Enter valid time and golfer." } := by
  cases hg : TimeTrack.dictGet s.player_data sel with
  | none =>
    constructor <;>
      simp [TimeTrack.end_round_auto, TimeTrack.end_round_manual, hg]
  | some r =>
    have h2 : r.endT ≠ none := by
      intro he
      simp [TimeTrack.isActiveName, hg, he] at h
    constructor <;>
      simp [TimeTrack.end_round_auto, TimeTrack.end_round_manual, hg, h2]

/-- C5 witness: the theorem at a concrete state in which Alice has already
ended her round and Bob would be rejected alike. -/
theorem C5_witness :
    TimeTrack.isActiveName
        [("Alice",
           { holes := "18", busy := "Light", transport := "Cart", players := "1",
             start := { day := 0, minute := 540 },
             endT := some { day := 0, minute := 600 } })] "Alice" = false ∧
    (TimeTrack.end_round_auto
        { player_data := [("Alice",
            { holes := "18", busy := "Light", transport := "Cart", players := "1",
              start := { day := 0, minute := 540 },
              endT := some { day := 0, minute := 600 } })],
          log := [], status := "" } "Alice" { day := 0, minute := 660 } =
      { player_data := [("Alice",
          { holes := "18", busy := "Light", transport := "Cart", players := "1",
            start := { day := 0, minute := 540 },
            endT := some { day := 0, minute := 600 } })],
        log := [], status := "Invalid golfer selected." } ∧
     TimeTrack.end_round_manual
        { player_data := [("Alice",
            { holes := "18", busy := "Light", transport := "Cart", players := "1",
              start := { day := 0, minute := 540 },
              endT := some { day := 0, minute := 600 } })],
          log := [], status := "" } "Alice" "11" "00" "AM" { day := 0, minute := 660 } =
      .ok { player_data := [("Alice",
              { holes := "18", busy := "Light", transport := "Cart", players := "1",
                start := { day := 0, minute := 540 },
                endT := some { day := 0, minute := 600 } })],
            log := [], status := "Enter valid time and golfer." }) :=
  ⟨by decide,
   C5_no_active_fails
     { player_data := [("Alice",
         { holes := "18", busy := "Light", transport := "Cart", players := "1",
           start := { day := 0, minute := 540 },
           endT := some { day := 0, minute := 600 } })],
       log := [], status := "" } "Alice" { day := 0, minute := 660 } "11" "00" "AM"
     (by decide)⟩

/-! Claim C6. -/

/-- C6: a name that is empty or consists only of whitespace is rejected by
start_round: the desktop handler reports the enter-a-name status and leaves
player_data and the log unchanged, and both web start handlers leave the
worksheets untouched, inserting no Active row. -/
theorem C6_empty_name (s : TimeTrack.TkState)
    (rawName holes busy transport players : String) (now : TimeTrack.CivilMin)
    (w : WebApp.SheetState) (g : Int) (t : String) (d : WebApp.PyDateTime)
    (h12 m : Nat) (ap : String) (today : Int)
    (h : rawName.data.all isPySpace = true) :
    TimeTrack.start_round_auto s rawName holes busy transport players now =
      { s with status := "Enter a player name." } ∧
    WebApp.startNowHandler w rawName g t d = .ok w ∧
    WebApp.startManualHandler w rawName g t h12 m ap today = w := by
  have h0 : pyStrip rawName = "" := pyStrip_eq_empty_of_all_space rawName h
  refine ⟨?_, ?_, ?_⟩ <;>
    simp [TimeTrack.start_round_auto, WebApp.startNowHandler,
      WebApp.startManualHandler, h0]

/-- C6 witness: the theorem at the concrete whitespace-only name. -/
theorem C6_witness :
    ("  ".data.all isPySpace = true) ∧
    (TimeTrack.start_round_auto ⟨[], [], ""⟩ "  " "18" "Light" "Cart" "1"
        { day := 0, minute := 540 } =
      { (⟨[], [], ""⟩ : TimeTrack.TkState) with status := "Enter a player name." } ∧
     WebApp.startNowHandler ⟨[], []⟩ "  " 1 "Cart" ⟨0, 0, 0⟩ = .ok ⟨[], []⟩ ∧
     WebApp.startManualHandler ⟨[], []⟩ "  " 1 "Cart" 9 30 "AM" 0 = ⟨[], []⟩) :=
  ⟨by decide,
   C6_empty_name ⟨[], [], ""⟩ "  " "18" "Light" "Cart" "1" { day := 0, minute := 540 }
     ⟨[], []⟩ 1 "Cart" ⟨0, 0, 0⟩ 9 30 "AM" 0 (by decide)⟩

/-! Claim C9. -/

/-- C9: ZoneInfo is bound nowhere at the top level of steamlit_app.py, so
both the "Start Round (Now)" and the "End Round (Now)" handlers, whose
current-time expressions resolve the name ZoneInfo, raise an uncaught
NameError instead of recording the current time; no row is written. -/
theorem C9_zoneinfo_nameerror (w : WebApp.SheetState) (nm : String) (g : Int)
    (tr : String) (now : WebApp.PyDateTime) (i : Nat) (arow : WebApp.ActiveRow)
    (hn : pyStrip nm ≠ "") (hi : w.active[i]? = some arow) :
    WebApp.moduleGlobals.contains "ZoneInfo" = false ∧
    WebApp.startNowHandler w nm g tr now = .nameError "ZoneInfo" ∧
    WebApp.endNowHandler w i now = .nameError "ZoneInfo" := by
  have hz : ¬ ("ZoneInfo" ∈ WebApp.moduleGlobals) := by decide
  refine ⟨by decide, ?_, ?_⟩
  · simp [WebApp.startNowHandler, WebApp.datetimeNowNY, hn, hz]
  · simp [WebApp.endNowHandler, WebApp.datetimeNowNY, hi, hz]

/-- C9 witness: the theorem at a concrete sheet with one active golfer. -/
theorem C9_witness :
    pyStrip "Dana" ≠ "" ∧
    ([{ date := 0, name := "Eve", groupSize := 2, transport := "Cart",
        start := { day := 0, sec := 32400, usec := 0 } }] :
          List WebApp.ActiveRow)[0]? =
      some { date := 0, name := "Eve", groupSize := 2, transport := "Cart",
             start := { day := 0, sec := 32400, usec := 0 } } ∧
    (WebApp.moduleGlobals.contains "ZoneInfo" = false ∧
     WebApp.startNowHandler
        ⟨[{ date := 0, name := "Eve", groupSize := 2, transport := "Cart",
            start := { day := 0, sec := 32400, usec := 0 } }], []⟩
        "Dana" 1 "Walking" ⟨0, 36000, 0⟩ = .nameError "ZoneInfo" ∧
     WebApp.endNowHandler
        ⟨[{ date := 0, name := "Eve", groupSize := 2, transport := "Cart",
            start := { day := 0, sec := 32400, usec := 0 } }], []⟩
        0 ⟨0, 36000, 0⟩ = .nameError "ZoneInfo") :=
  ⟨by decide, by decide,
   C9_zoneinfo_nameerror
     ⟨[{ date := 0, name := "Eve", groupSize := 2, transport := "Cart",
         start := { day := 0, sec := 32400, usec := 0 } }], []⟩
     "Dana" 1 "Walking" ⟨0, 36000, 0⟩ 0
     { date := 0, name := "Eve", groupSize := 2, transport := "Cart",
       start := { day := 0, sec := 32400, usec := 0 } }
     (by decide) (by decide)⟩

/-! Claim C10. -/

/-- C10 counterexample: the claim asserts that a digit-string hour that is
at least 24 after AM/PM conversion, for example "23" with PM, makes
datetime.replace raise ValueError.  In the code the hour is first reduced
modulo 12, so "23" with PM converts to hour 23, replace succeeds, and the
round is silently started at 11:30 PM; no exception is raised. -/
theorem C10_counterexample :
    TimeTrack.start_round_manual ⟨[], [], ""⟩ "Bob" "23" "30" "PM"
        "18" "Light" "Cart" "1" { day := 5, minute := 700 } =
      .ok { player_data := [("Bob",
              { holes := "18", busy := "Light", transport := "Cart", players := "1",
                start := { day := 5, minute := 1410 }, endT := none })],
            log := [], status := "Manual started round for Bob" } ∧
    TimeTrack.start_round_manual ⟨[], [], ""⟩ "Bob" "23" "30" "PM"
        "18" "Light" "Cart" "1" { day := 5, minute := 700 } ≠
      .error "ValueError" := by
  refine ⟨?_, ?_⟩ <;> decide

/-- C10 amended: manual time fields are validated only by isdigit.  A
digit-string minute of value 60 or more makes datetime.replace raise an
uncaught ValueError in both manual handlers (a crash, never the handled
invalid-input status), while the converted hour is reduced modulo 12 before
the PM offset and therefore never reaches 24, so hour inputs never raise. -/
theorem C10_manual_validation (s : TimeTrack.TkState)
    (rawName hourStr minuteStr ampm holes busy transport players : String)
    (now : TimeTrack.CivilMin)
    (s2 : TimeTrack.TkState) (sel : String) (r : TimeTrack.PRound)
    (hourAny ampmAny : String)
    (hname : pyStrip rawName ≠ "")
    (hh : pyIsDigit (pyStrip hourStr) = true)
    (hm2 : pyIsDigit (pyStrip minuteStr) = true)
    (hbig : 60 ≤ strToNat (pyStrip minuteStr))
    (hget : TimeTrack.dictGet s2.player_data sel = some r)
    (hend : r.endT = none) :
    TimeTrack.start_round_manual s rawName hourStr minuteStr ampm
        holes busy transport players now = .error "ValueError" ∧
    TimeTrack.end_round_manual s2 sel hourStr minuteStr ampm now =
      .error "ValueError" ∧
    strToNat hourAny % 12 + (if ampmAny = "PM" then 12 else 0) ≤ 23 := by
  have hm3 : ¬ (strToNat (pyStrip minuteStr) ≤ 59) := by omega
  refine ⟨?_, ?_, ?_⟩
  · simp [TimeTrack.start_round_manual, TimeTrack.datetimeReplace,
      hname, hh, hm2, hm3]
  · simp [TimeTrack.end_round_manual, TimeTrack.datetimeReplace,
      hget, hend, hh, hm2, hm3]
  · have hlt : strToNat hourAny % 12 < 12 := Nat.mod_lt _ (by omega)
    split <;> omega

/-- C10 witness: the amended theorem at concrete inputs with minute "75". -/
theorem C10_witness :
    pyStrip "Ann" ≠ "" ∧ pyIsDigit (pyStrip "10") = true ∧
    pyIsDigit (pyStrip "75") = true ∧ 60 ≤ strToNat (pyStrip "75") ∧
    TimeTrack.dictGet [("Cal",
        { holes := "9", busy := "Heavy", transport := "Cart", players := "3",
          start := { day := 2, minute := 480 }, endT := none })] "Cal" =
      some { holes := "9", busy := "Heavy", transport := "Cart", players := "3",
             start := { day := 2, minute := 480 }, endT := none } ∧
    ({ holes := "9", busy := "Heavy", transport := "Cart", players := "3",
       start := { day := 2, minute := 480 },
       endT := none } : TimeTrack.PRound).endT = none ∧
    (TimeTrack.start_round_manual ⟨[], [], ""⟩ "Ann" "10" "75" "AM"
        "18" "Light" "Cart" "1" { day := 2, minute := 500 } = .error "ValueError" ∧
     TimeTrack.end_round_manual
        ⟨[("Cal",
           { holes := "9", busy := "Heavy", transport := "Cart", players := "3",
             start := { day := 2, minute := 480 }, endT := none })], [], ""⟩
        "Cal" "10" "75" "AM" { day := 2, minute := 500 } = .error "ValueError" ∧
     strToNat "7" % 12 + (if "PM" = "PM" then 12 else 0) ≤ 23) :=
  ⟨by decide, by decide, by decide, by decide, by decide, by decide,
   C10_manual_validation ⟨[], [], ""⟩ "Ann" "10" "75" "AM"
     "18" "Light" "Cart" "1" { day := 2, minute := 500 }
     ⟨[("Cal",
        { holes := "9", busy := "Heavy", transport := "Cart", players := "3",
          start := { day := 2, minute := 480 }, endT := none })], [], ""⟩
     "Cal"
     { holes := "9", busy := "Heavy", transport := "Cart", players := "3",
       start := { day := 2, minute := 480 }, endT := none }
     "7" "PM" (by decide) (by decide) (by decide) (by decide) (by decide)
     (by decide)⟩

/-! Arithmetic helper lemmas about the elapsed-time computations. -/

theorem fmt_hms_nonpos (t : Int) (h : t ≤ 0) : WebApp.fmt_hms t = "00:00:00" := by
  by_cases h2 : t < 0
  · simp only [WebApp.fmt_hms, if_pos h2]
    decide
  · have h3 : t = 0 := le_antisymm h (not_lt.mp h2)
    subst h3
    decide

theorem fmt_hms_decomp (t : Int) (h : 0 ≤ t) :
    WebApp.fmt_hms t =
      WebApp.pad2 (t.toNat / 3600) ++ ":" ++ WebApp.pad2 (t.toNat % 3600 / 60) ++
        ":" ++ WebApp.pad2 (t.toNat % 60) := by
  simp only [WebApp.fmt_hms, if_neg (by omega : ¬ t < 0)]

theorem pad2_length : ∀ n, n < 100 → (WebApp.pad2 n).length = 2 := by decide

theorem tdiv_million_nonpos (a : Int) (h : a < 0) : Int.tdiv a 1000000 ≤ 0 := by
  have h2 : Int.tdiv a 1000000 = -(Int.tdiv (-a) 1000000) := by
    rw [← Int.neg_tdiv, neg_neg]
  have h3 := Int.tdiv_nonneg (a := -a) (b := 1000000) (by omega) (by omega)
  omega

theorem tdiv_million_exact (d : Int) (u : Nat) (hd : 0 ≤ d) (hu : u < 1000000) :
    Int.tdiv (d * 1000000 + u) 1000000 = d := by
  rw [Int.tdiv_eq_ediv (by omega) (by omega)]
  omega

theorem micros_diff (s e : WebApp.PyDateTime) (hs : s.usec = 0) :
    WebApp.microsOf e - WebApp.microsOf s =
      ((e.day * 86400 + (e.sec : Int)) - (s.day * 86400 + (s.sec : Int))) * 1000000 +
        (e.usec : Int) := by
  unfold WebApp.microsOf
  rw [hs]
  push_cast
  ring

theorem fmt_tdiv_drop_usec (d : Int) (u : Nat) (hu : u < 1000000) :
    WebApp.fmt_hms (Int.tdiv (d * 1000000 + u) 1000000) =
      WebApp.fmt_hms (Int.tdiv (d * 1000000) 1000000) := by
  rcases le_or_lt 0 d with hd | hd
  · rw [tdiv_million_exact d u hd hu]
    have h0 : Int.tdiv (d * 1000000) 1000000 = d := by
      have h1 := tdiv_million_exact d 0 hd (by omega)
      simpa using h1
    rw [h0]
  · have hneg1 : d * 1000000 + (u : Int) < 0 := by omega
    have hneg2 : d * 1000000 < 0 := by omega
    rw [fmt_hms_nonpos _ (tdiv_million_nonpos _ hneg1),
      fmt_hms_nonpos _ (tdiv_million_nonpos _ hneg2)]

theorem fmt_total_iso (s e : WebApp.PyDateTime) (hs : s.usec = 0)
    (hu : e.usec < 1000000) :
    WebApp.fmt_hms
        (WebApp.total_seconds_int (WebApp.isoformat e) (WebApp.isoformat s)) =
      WebApp.fmt_hms (WebApp.total_seconds_int e s) := by
  have h1 : WebApp.total_seconds_int (WebApp.isoformat e) (WebApp.isoformat s) =
      Int.tdiv (((e.day * 86400 + (e.sec : Int)) -
        (s.day * 86400 + (s.sec : Int))) * 1000000) 1000000 := by
    unfold WebApp.total_seconds_int
    rw [micros_diff (WebApp.isoformat s) (WebApp.isoformat e) rfl]
    norm_num [WebApp.isoformat]
  have h2 : WebApp.total_seconds_int e s =
      Int.tdiv (((e.day * 86400 + (e.sec : Int)) -
        (s.day * 86400 + (s.sec : Int))) * 1000000 + (e.usec : Int)) 1000000 := by
    unfold WebApp.total_seconds_int
    rw [micros_diff s e hs]
  rw [h1, h2, fmt_tdiv_drop_usec _ _ hu]

/-! Claim C2. -/

/-- C2 counterexample: the desktop variant renders elapsed time as hours
and minutes in the form "2h 30m", not as the zero-padded "02:30:00" that
fmt_hms would produce for the same 9000-second elapsed interval, so the
claim that every end_round renders elapsed as zero-padded HH colon MM
colon SS fails on the desktop variant. -/
theorem C2_counterexample :
    (TimeTrack.end_round_auto
        { player_data := [("Alice",
            { holes := "18", busy := "Light", transport := "Cart", players := "1",
              start := { day := 0, minute := 540 }, endT := none })],
          log := [], status := "" }
        "Alice" { day := 0, minute := 690 }).log =
      [{ name := "Alice", players := "1", holes := "18", busy := "Light",
         start := { day := 0, minute := 540 }, endT := { day := 0, minute := 690 },
         time_on_course := "2h 30m", transport := "Cart" }] ∧
    WebApp.fmt_hms 9000 = "02:30:00" ∧
    ("2h 30m" : String) ≠ "02:30:00" := by
  refine ⟨?_, ?_, ?_⟩ <;> decide

/-- C2 amended: in the spreadsheet variant, for start at most end the
recorded elapsed equals end minus start in whole seconds, rendered by
fmt_hms as zero-padded hours, minutes and seconds with two-digit minute and
second fields and an hours field that grows without bound; the desktop
variant records the same elapsed value but renders it as hours and minutes
in the form "Hh Mm", without zero padding and without a seconds field. -/
theorem C2_elapsed_format (w : WebApp.SheetState) (today : Int) (nm : String)
    (g : Int) (tr : String) (s e : WebApp.PyDateTime)
    (hs : s.usec = 0) (he : e.usec = 0)
    (hle : WebApp.microsOf s ≤ WebApp.microsOf e)
    (a b : TimeTrack.CivilMin) (hab : a.total ≤ b.total) :
    (WebApp.append_record w today nm g tr s e).records =
      w.records ++
        [{ date := today, name := nm, groupSize := g, transport := tr,
           start := WebApp.isoformat s, endT := WebApp.isoformat e,
           totalElapsed := WebApp.fmt_hms (WebApp.total_seconds_int e s) }] ∧
    WebApp.total_seconds_int e s =
      (e.day * 86400 + (e.sec : Int)) - (s.day * 86400 + (s.sec : Int)) ∧
    0 ≤ WebApp.total_seconds_int e s ∧
    WebApp.fmt_hms (WebApp.total_seconds_int e s) =
      WebApp.pad2 ((WebApp.total_seconds_int e s).toNat / 3600) ++ ":" ++
        WebApp.pad2 ((WebApp.total_seconds_int e s).toNat % 3600 / 60) ++ ":" ++
        WebApp.pad2 ((WebApp.total_seconds_int e s).toNat % 60) ∧
    (WebApp.pad2 ((WebApp.total_seconds_int e s).toNat % 3600 / 60)).length = 2 ∧
    (WebApp.pad2 ((WebApp.total_seconds_int e s).toNat % 60)).length = 2 ∧
    3600 * ((WebApp.total_seconds_int e s).toNat / 3600) +
        60 * ((WebApp.total_seconds_int e s).toNat % 3600 / 60) +
        (WebApp.total_seconds_int e s).toNat % 60 =
      (WebApp.total_seconds_int e s).toNat ∧
    TimeTrack.time_on_course a b =
      toString (Int.fdiv (60 * (b.total - a.total)) 3600) ++ "h " ++
        toString (Int.fdiv (Int.fmod (60 * (b.total - a.total)) 3600) 60) ++ "m" ∧
    0 ≤ Int.fdiv (60 * (b.total - a.total)) 3600 ∧
    3600 * Int.fdiv (60 * (b.total - a.total)) 3600 +
        60 * Int.fdiv (Int.fmod (60 * (b.total - a.total)) 3600) 60 =
      60 * (b.total - a.total) := by
  have hmd : WebApp.microsOf e - WebApp.microsOf s =
      ((e.day * 86400 + (e.sec : Int)) - (s.day * 86400 + (s.sec : Int))) * 1000000 := by
    rw [micros_diff s e hs, he]
    norm_num
  have hd : 0 ≤ (e.day * 86400 + (e.sec : Int)) - (s.day * 86400 + (s.sec : Int)) := by
    nlinarith [hmd, hle]
  have h2 : WebApp.total_seconds_int e s =
      (e.day * 86400 + (e.sec : Int)) - (s.day * 86400 + (s.sec : Int)) := by
    unfold WebApp.total_seconds_int
    rw [hmd]
    have h3 := tdiv_million_exact _ 0 hd (by omega)
    simpa using h3
  have h0 : 0 ≤ WebApp.total_seconds_int e s := by omega
  refine ⟨rfl, h2, h0, fmt_hms_decomp _ h0, pad2_length _ (by omega),
    pad2_length _ (by omega), by omega, rfl, ?_, ?_⟩
  · rw [Int.fdiv_eq_ediv _ (by omega)]
    omega
  · rw [Int.fdiv_eq_ediv _ (by omega), Int.fmod_eq_emod _ (by omega),
      Int.fdiv_eq_ediv _ (by omega)]
    omega

/-- C2 witness: the amended theorem at a concrete round from nine to
eleven thirty, elapsed 9000 seconds. -/
theorem C2_witness :
    ((⟨0, 32400, 0⟩ : WebApp.PyDateTime).usec = 0) ∧
    ((⟨0, 41400, 0⟩ : WebApp.PyDateTime).usec = 0) ∧
    WebApp.microsOf ⟨0, 32400, 0⟩ ≤ WebApp.microsOf ⟨0, 41400, 0⟩ ∧
    (⟨0, 540⟩ : TimeTrack.CivilMin).total ≤ (⟨0, 690⟩ : TimeTrack.CivilMin).total ∧
    ((WebApp.append_record ⟨[], []⟩ 0 "Alice" 2 "Cart" ⟨0, 32400, 0⟩
          ⟨0, 41400, 0⟩).records =
      (⟨[], []⟩ : WebApp.SheetState).records ++
        [{ date := 0, name := "Alice", groupSize := 2, transport := "Cart",
           start := WebApp.isoformat ⟨0, 32400, 0⟩,
           endT := WebApp.isoformat ⟨0, 41400, 0⟩,
           totalElapsed := WebApp.fmt_hms
             (WebApp.total_seconds_int ⟨0, 41400, 0⟩ ⟨0, 32400, 0⟩) }] ∧
     WebApp.total_seconds_int ⟨0, 41400, 0⟩ ⟨0, 32400, 0⟩ = 9000 ∧
     (0 : Int) ≤ 9000 ∧
     WebApp.fmt_hms (WebApp.total_seconds_int ⟨0, 41400, 0⟩ ⟨0, 32400, 0⟩) =
       WebApp.pad2 2 ++ ":" ++ WebApp.pad2 30 ++ ":" ++ WebApp.pad2 0 ∧
     (WebApp.pad2 30).length = 2 ∧
     (WebApp.pad2 0).length = 2 ∧
     3600 * 2 + 60 * 30 + 0 = 9000 ∧
     TimeTrack.time_on_course ⟨0, 540⟩ ⟨0, 690⟩ =
       toString (2 : Int) ++ "h " ++ toString (30 : Int) ++ "m" ∧
     (0 : Int) ≤ 2 ∧
     3600 * (2 : Int) + 60 * 30 = 9000) :=
  ⟨rfl, rfl, by decide, by decide,
   C2_elapsed_format ⟨[], []⟩ 0 "Alice" 2 "Cart" ⟨0, 32400, 0⟩ ⟨0, 41400, 0⟩
     rfl rfl (by decide) ⟨0, 540⟩ ⟨0, 690⟩ (by decide)⟩

/-! Claim C3. -/

/-- C3 counterexample: in the desktop variant an end time before the start
time is not clamped: the recorded elapsed rendering is "-1h 0m", a negative
duration, not the "00:00:00" the claim asserts. -/
theorem C3_counterexample :
    (TimeTrack.end_round_auto
        { player_data := [("Alice",
            { holes := "18", busy := "Light", transport := "Cart", players := "1",
              start := { day := 0, minute := 600 }, endT := none })],
          log := [], status := "" }
        "Alice" { day := 0, minute := 540 }).log =
      [{ name := "Alice", players := "1", holes := "18", busy := "Light",
         start := { day := 0, minute := 600 }, endT := { day := 0, minute := 540 },
         time_on_course := "-1h 0m", transport := "Cart" }] ∧
    ("-1h 0m" : String) ≠ "00:00:00" := by
  refine ⟨?_, ?_⟩ <;> decide

/-- C3 amended: when the end time precedes the start time, the end is
accepted in both variants; the spreadsheet variant clamps the recorded
elapsed to exactly "00:00:00", while the desktop variant records the
unclamped value, whose hour component is negative. -/
theorem C3_clamp (w : WebApp.SheetState) (today : Int) (nm : String)
    (g : Int) (tr : String) (s e : WebApp.PyDateTime)
    (hlt : WebApp.microsOf e < WebApp.microsOf s)
    (a b : TimeTrack.CivilMin) (hba : b.total < a.total)
    (ts : TimeTrack.TkState) (sel : String) (r : TimeTrack.PRound)
    (hget : TimeTrack.dictGet ts.player_data sel = some r)
    (hend : r.endT = none) :
    (WebApp.append_record w today nm g tr s e).records =
      w.records ++
        [{ date := today, name := nm, groupSize := g, transport := tr,
           start := WebApp.isoformat s, endT := WebApp.isoformat e,
           totalElapsed := WebApp.fmt_hms (WebApp.total_seconds_int e s) }] ∧
    WebApp.fmt_hms (WebApp.total_seconds_int e s) = "00:00:00" ∧
    TimeTrack.time_on_course a b =
      toString (Int.fdiv (60 * (b.total - a.total)) 3600) ++ "h " ++
        toString (Int.fdiv (Int.fmod (60 * (b.total - a.total)) 3600) 60) ++ "m" ∧
    Int.fdiv (60 * (b.total - a.total)) 3600 < 0 ∧
    (TimeTrack.end_round_auto ts sel b).log =
      ts.log ++ [TimeTrack.save_to_file sel { r with endT := some b } b] := by
  refine ⟨rfl, ?_, rfl, ?_, ?_⟩
  · apply fmt_hms_nonpos
    apply tdiv_million_nonpos
    omega
  · rw [Int.fdiv_eq_ediv _ (by omega)]
    omega
  · simp [TimeTrack.end_round_auto, hget, hend]

/-- C3 witness: the amended theorem at a concrete skewed manual entry. -/
theorem C3_witness :
    WebApp.microsOf ⟨0, 32400, 0⟩ < WebApp.microsOf ⟨0, 36000, 0⟩ ∧
    (⟨0, 540⟩ : TimeTrack.CivilMin).total < (⟨0, 600⟩ : TimeTrack.CivilMin).total ∧
    TimeTrack.dictGet [("Alice",
        { holes := "18", busy := "Light", transport := "Cart", players := "1",
          start := { day := 0, minute := 600 }, endT := none })] "Alice" =
      some { holes := "18", busy := "Light", transport := "Cart", players := "1",
             start := { day := 0, minute := 600 }, endT := none } ∧
    ({ holes := "18", busy := "Light", transport := "Cart", players := "1",
       start := { day := 0, minute := 600 },
       endT := none } : TimeTrack.PRound).endT = none ∧
    ((WebApp.append_record ⟨[], []⟩ 0 "Alice" 1 "Cart" ⟨0, 36000, 0⟩
          ⟨0, 32400, 0⟩).records =
      (⟨[], []⟩ : WebApp.SheetState).records ++
        [{ date := 0, name := "Alice", groupSize := 1, transport := "Cart",
           start := WebApp.isoformat ⟨0, 36000, 0⟩,
           endT := WebApp.isoformat ⟨0, 32400, 0⟩,
           totalElapsed := WebApp.fmt_hms
             (WebApp.total_seconds_int ⟨0, 32400, 0⟩ ⟨0, 36000, 0⟩) }] ∧
     WebApp.fmt_hms (WebApp.total_seconds_int ⟨0, 32400, 0⟩ ⟨0, 36000, 0⟩) =
       "00:00:00" ∧
     TimeTrack.time_on_course ⟨0, 600⟩ ⟨0, 540⟩ =
       toString (-1 : Int) ++ "h " ++ toString (0 : Int) ++ "m" ∧
     (-1 : Int) < 0 ∧
     (TimeTrack.end_round_auto
        { player_data := [("Alice",
            { holes := "18", busy := "Light", transport := "Cart", players := "1",
              start := { day := 0, minute := 600 }, endT := none })],
          log := [], status := "" } "Alice" ⟨0, 540⟩).log =
       ([] : List TimeTrack.LogLine) ++
         [TimeTrack.save_to_file "Alice"
           { holes := "18", busy := "Light", transport := "Cart", players := "1",
             start := { day := 0, minute := 600 },
             endT := some ⟨0, 540⟩ } ⟨0, 540⟩]) :=
  ⟨by decide, by decide, by decide, by decide,
   C3_clamp ⟨[], []⟩ 0 "Alice" 1 "Cart" ⟨0, 36000, 0⟩ ⟨0, 32400, 0⟩ (by decide)
     ⟨0, 600⟩ ⟨0, 540⟩ (by decide)
     { player_data := [("Alice",
         { holes := "18", busy := "Light", transport := "Cart", players := "1",
           start := { day := 0, minute := 600 }, endT := none })],
       log := [], status := "" }
     "Alice"
     { holes := "18", busy := "Light", transport := "Cart", players := "1",
       start := { day := 0, minute := 600 }, endT := none }
     (by decide) (by decide)⟩

/-! Claim C4. -/

/-- C4: a record written to the Records worksheet by the end handler and
re-read through read_records_today_df on the same day comes back with
identical date, name, group size, transport, start, end and elapsed
fields: the re-read list is the previous re-read list plus exactly the
written row, whose recomputed Total Elapsed equals the written one. -/
theorem C4_roundtrip (w : WebApp.SheetState) (today : Int) (nm : String)
    (g : Int) (tr : String) (s e : WebApp.PyDateTime)
    (hs : s.usec = 0) (hu : e.usec < 1000000) :
    WebApp.read_records_today_df (WebApp.append_record w today nm g tr s e) today =
      WebApp.read_records_today_df w today ++
        [{ date := today, name := nm, groupSize := g, transport := tr,
           start := WebApp.isoformat s, endT := WebApp.isoformat e,
           totalElapsed := WebApp.fmt_hms (WebApp.total_seconds_int e s) }] := by
  unfold WebApp.read_records_today_df WebApp.append_record
  rw [List.filter_append, List.map_append]
  congr 1
  simp only [List.filter, beq_self_eq_true, List.map, WebApp.recomputeElapsed]
  have h1 := fmt_total_iso s e hs hu
  simp_all

/-- C4 witness: the round trip at a concrete record whose end time carries
a microsecond remainder that the stored rendering truncates. -/
theorem C4_witness :
    ((⟨0, 32400, 0⟩ : WebApp.PyDateTime).usec = 0) ∧
    ((⟨0, 41400, 123⟩ : WebApp.PyDateTime).usec < 1000000) ∧
    WebApp.read_records_today_df
        (WebApp.append_record ⟨[], []⟩ 0 "Alice" 2 "Cart" ⟨0, 32400, 0⟩
          ⟨0, 41400, 123⟩) 0 =
      WebApp.read_records_today_df ⟨[], []⟩ 0 ++
        [{ date := 0, name := "Alice", groupSize := 2, transport := "Cart",
           start := WebApp.isoformat ⟨0, 32400, 0⟩,
           endT := WebApp.isoformat ⟨0, 41400, 123⟩,
           totalElapsed := WebApp.fmt_hms
             (WebApp.total_seconds_int ⟨0, 41400, 123⟩ ⟨0, 32400, 0⟩) }] :=
  ⟨rfl, by decide,
   C4_roundtrip ⟨[], []⟩ 0 "Alice" 2 "Cart" ⟨0, 32400, 0⟩ ⟨0, 41400, 123⟩
     rfl (by decide)⟩


/-! Append-only helper lemmas for the history collections. -/

theorem start_round_manual_log (s : TimeTrack.TkState)
    (n hh mm ap h b t p : String) (now : TimeTrack.CivilMin)
    (s2 : TimeTrack.TkState)
    (hr : TimeTrack.start_round_manual s n hh mm ap h b t p now = .ok s2) :
    s2.log = s.log := by
  simp only [TimeTrack.start_round_manual] at hr
  by_cases hC : (pyStrip n ≠ "" ∧ pyIsDigit (pyStrip hh) = true ∧
      pyIsDigit (pyStrip mm) = true)
  · rw [if_pos hC] at hr
    rcases hd : TimeTrack.datetimeReplace now
        (strToNat (pyStrip hh) % 12 + if ap = "PM" then 12 else 0)
        (strToNat (pyStrip mm)) with e2 | st
    · rw [hd] at hr
      simp at hr
    · rw [hd] at hr
      simp only [Except.ok.injEq] at hr
      rw [← hr]
  · rw [if_neg hC] at hr
    simp only [Except.ok.injEq] at hr
    rw [← hr]

theorem end_round_manual_log (s : TimeTrack.TkState) (sel hh mm ap : String)
    (now : TimeTrack.CivilMin) (s2 : TimeTrack.TkState)
    (hr : TimeTrack.end_round_manual s sel hh mm ap now = .ok s2) :
    appendOnly s.log s2.log := by
  simp only [TimeTrack.end_round_manual] at hr
  rcases hg : TimeTrack.dictGet s.player_data sel with _ | r
  · rw [hg] at hr
    simp only [Except.ok.injEq] at hr
    rw [← hr]
    exact appendOnly_refl _
  · rw [hg] at hr
    dsimp only at hr
    by_cases hC : (r.endT = none ∧ pyIsDigit (pyStrip hh) = true ∧
        pyIsDigit (pyStrip mm) = true)
    · rw [if_pos hC] at hr
      rcases hd : TimeTrack.datetimeReplace now
          (strToNat (pyStrip hh) % 12 + if ap = "PM" then 12 else 0)
          (strToNat (pyStrip mm)) with e2 | endv
      · rw [hd] at hr
        simp at hr
      · rw [hd] at hr
        simp only [Except.ok.injEq] at hr
        rw [← hr]
        exact appendOnly_concat _ _
    · rw [if_neg hC] at hr
      simp only [Except.ok.injEq] at hr
      rw [← hr]
      exact appendOnly_refl _

theorem applyTk_log_appendOnly (op : TimeTrack.TkOp) (s : TimeTrack.TkState) :
    appendOnly s.log (TimeTrack.applyTk op s).log := by
  cases op with
  | startAuto n h b t p now =>
    refine ⟨[], ?_⟩
    simp only [TimeTrack.applyTk, TimeTrack.start_round_auto]
    split <;> simp
  | startManual n hh mm ap h b t p now =>
    simp only [TimeTrack.applyTk]
    rcases hr : TimeTrack.start_round_manual s n hh mm ap h b t p now with e2 | s2
    · exact appendOnly_refl _
    · rw [start_round_manual_log s n hh mm ap h b t p now s2 hr]
      exact appendOnly_refl _
  | endAuto sel now =>
    simp only [TimeTrack.applyTk, TimeTrack.end_round_auto]
    rcases hg : TimeTrack.dictGet s.player_data sel with _ | r
    · exact appendOnly_refl _
    · by_cases hr2 : r.endT = none
      · refine ⟨[TimeTrack.save_to_file sel { r with endT := some now } now], ?_⟩
        simp [hr2]
      · refine ⟨[], ?_⟩
        simp [hr2]
  | endManual sel hh mm ap now =>
    simp only [TimeTrack.applyTk]
    rcases hr : TimeTrack.end_round_manual s sel hh mm ap now with e2 | s2
    · exact appendOnly_refl _
    · exact end_round_manual_log s sel hh mm ap now s2 hr
  | refresh => exact appendOnly_refl _

theorem endRoundWith_records_appendOnly (s : WebApp.SheetState) (i : Nat)
    (e : WebApp.PyDateTime) :
    appendOnly s.records (WebApp.endRoundWith s i e).records := by
  unfold WebApp.endRoundWith
  rcases hg : s.active[i]? with _ | r
  · exact appendOnly_refl _
  · exact appendOnly_concat _ _

theorem startNowHandler_records (s : WebApp.SheetState) (n : String) (g : Int)
    (t : String) (now : WebApp.PyDateTime) (s2 : WebApp.SheetState)
    (hr : WebApp.startNowHandler s n g t now = .ok s2) :
    s2.records = s.records := by
  simp only [WebApp.startNowHandler] at hr
  by_cases hC : pyStrip n = ""
  · rw [if_pos hC] at hr
    simp only [WebApp.PyEval.ok.injEq] at hr
    rw [← hr]
  · rw [if_neg hC] at hr
    rcases hd : WebApp.datetimeNowNY now with dt | mi
    · rw [hd] at hr
      simp only [WebApp.PyEval.ok.injEq] at hr
      rw [← hr]
      rfl
    · rw [hd] at hr
      simp at hr

theorem applySheet_records_appendOnly (op : WebApp.SOp) (s : WebApp.SheetState) :
    appendOnly s.records (WebApp.applySheet op s).records := by
  cases op with
  | startNow n g t now =>
    simp only [WebApp.applySheet]
    rcases hr : WebApp.startNowHandler s n g t now with s2 | mi
    · rw [startNowHandler_records s n g t now s2 hr]
      exact appendOnly_refl _
    · exact appendOnly_refl _
  | startManual n g t h12 m ap today =>
    refine ⟨[], ?_⟩
    simp only [WebApp.applySheet, WebApp.startManualHandler]
    split <;> simp [WebApp.append_active]
  | endNow i now =>
    simp only [WebApp.applySheet]
    rcases hr : WebApp.endNowHandler s i now with s2 | mi
    · simp only [WebApp.endNowHandler] at hr
      rcases hg : s.active[i]? with _ | r
      · rw [hg] at hr
        simp only [WebApp.PyEval.ok.injEq] at hr
        rw [← hr]
        exact appendOnly_refl _
      · rw [hg] at hr
        rcases hd : WebApp.datetimeNowNY now with dt | mi2
        · rw [hd] at hr
          simp only [WebApp.PyEval.ok.injEq] at hr
          rw [← hr]
          exact endRoundWith_records_appendOnly _ _ _
        · rw [hd] at hr
          simp at hr
    · exact appendOnly_refl _
  | endManual i h12 m ap today =>
    simp only [WebApp.applySheet]
    exact endRoundWith_records_appendOnly _ _ _
  | readOnly => exact appendOnly_refl _

/-! Claim C7. -/

/-- C7: a successful end moves the round out of the active collection and
appends it to the history collection within the same operation, in both
variants; and every operation of either program only ever extends its
history collection on the right, so a record already in history is never
mutated or deleted. -/
theorem C7_move_and_append_only
    (ts : TimeTrack.TkState) (sel : String) (now : TimeTrack.CivilMin)
    (r : TimeTrack.PRound)
    (hget : TimeTrack.dictGet ts.player_data sel = some r)
    (hend : r.endT = none)
    (w : WebApp.SheetState) (i : Nat) (e : WebApp.PyDateTime)
    (arow : WebApp.ActiveRow) (hrow : w.active[i]? = some arow)
    (op1 : TimeTrack.TkOp) (t1 : TimeTrack.TkState)
    (op2 : WebApp.SOp) (w2 : WebApp.SheetState) :
    TimeTrack.end_round_auto ts sel now =
      { player_data :=
          TimeTrack.dictSet ts.player_data sel { r with endT := some now },
        log := ts.log ++
          [TimeTrack.save_to_file sel { r with endT := some now } now],
        status := "Auto ended round for " ++ sel } ∧
    TimeTrack.isActiveName
        (TimeTrack.end_round_auto ts sel now).player_data sel = false ∧
    WebApp.endRoundWith w i e =
      { active := w.active.eraseIdx i,
        records := w.records ++
          [{ date := arow.date, name := arow.name, groupSize := arow.groupSize,
             transport := arow.transport, start := WebApp.isoformat arow.start,
             endT := WebApp.isoformat e,
             totalElapsed := WebApp.fmt_hms
               (WebApp.total_seconds_int e arow.start) }] } ∧
    appendOnly t1.log (TimeTrack.applyTk op1 t1).log ∧
    appendOnly w2.records (WebApp.applySheet op2 w2).records := by
  refine ⟨?_, ?_, ?_, applyTk_log_appendOnly op1 t1,
    applySheet_records_appendOnly op2 w2⟩
  · simp [TimeTrack.end_round_auto, hget, hend]
  · simp [TimeTrack.end_round_auto, hget, hend, TimeTrack.isActiveName,
      dictGet_dictSet_self]
  · simp [WebApp.endRoundWith, hrow, WebApp.delete_active_row,
      WebApp.append_record]

/-- C7 witness: the theorem at a concrete state with one active golfer in
each variant, read-only operations standing in for the quantified ones. -/
theorem C7_witness :
    TimeTrack.dictGet [("Alice",
        { holes := "18", busy := "Light", transport := "Cart", players := "1",
          start := { day := 0, minute := 540 }, endT := none })] "Alice" =
      some { holes := "18", busy := "Light", transport := "Cart", players := "1",
             start := { day := 0, minute := 540 }, endT := none } ∧
    ({ holes := "18", busy := "Light", transport := "Cart", players := "1",
       start := { day := 0, minute := 540 },
       endT := none } : TimeTrack.PRound).endT = none ∧
    ([{ date := 0, name := "Eve", groupSize := 2, transport := "Cart",
        start := { day := 0, sec := 32400, usec := 0 } }] :
          List WebApp.ActiveRow)[0]? =
      some { date := 0, name := "Eve", groupSize := 2, transport := "Cart",
             start := { day := 0, sec := 32400, usec := 0 } } ∧
    (TimeTrack.end_round_auto
        { player_data := [("Alice",
            { holes := "18", busy := "Light", transport := "Cart", players := "1",
              start := { day := 0, minute := 540 }, endT := none })],
          log := [], status := "" } "Alice" { day := 0, minute := 600 } =
      { player_data := TimeTrack.dictSet
          [("Alice",
            { holes := "18", busy := "Light", transport := "Cart", players := "1",
              start := { day := 0, minute := 540 }, endT := none })] "Alice"
          { holes := "18", busy := "Light", transport := "Cart", players := "1",
            start := { day := 0, minute := 540 },
            endT := some { day := 0, minute := 600 } },
        log := [] ++ [TimeTrack.save_to_file "Alice"
          { holes := "18", busy := "Light", transport := "Cart", players := "1",
            start := { day := 0, minute := 540 },
            endT := some { day := 0, minute := 600 } } { day := 0, minute := 600 }],
        status := "Auto ended round for " ++ "Alice" } ∧
     TimeTrack.isActiveName
        (TimeTrack.end_round_auto
          { player_data := [("Alice",
              { holes := "18", busy := "Light", transport := "Cart", players := "1",
                start := { day := 0, minute := 540 }, endT := none })],
            log := [], status := "" } "Alice"
          { day := 0, minute := 600 }).player_data "Alice" = false ∧
     WebApp.endRoundWith
        ⟨[{ date := 0, name := "Eve", groupSize := 2, transport := "Cart",
            start := { day := 0, sec := 32400, usec := 0 } }], []⟩ 0
        ⟨0, 40000, 0⟩ =
      { active :=
          ([{ date := 0, name := "Eve", groupSize := 2, transport := "Cart",
              start := { day := 0, sec := 32400, usec := 0 } }] :
            List WebApp.ActiveRow).eraseIdx 0,
        records := [] ++
          [{ date := 0, name := "Eve", groupSize := 2, transport := "Cart",
             start := WebApp.isoformat { day := 0, sec := 32400, usec := 0 },
             endT := WebApp.isoformat ⟨0, 40000, 0⟩,
             totalElapsed := WebApp.fmt_hms
               (WebApp.total_seconds_int ⟨0, 40000, 0⟩
                 { day := 0, sec := 32400, usec := 0 }) }] } ∧
     appendOnly (⟨[], [], ""⟩ : TimeTrack.TkState).log
       (TimeTrack.applyTk TimeTrack.TkOp.refresh ⟨[], [], ""⟩).log ∧
     appendOnly (⟨[], []⟩ : WebApp.SheetState).records
       (WebApp.applySheet WebApp.SOp.readOnly ⟨[], []⟩).records) :=
  ⟨by decide, by decide, by decide,
   C7_move_and_append_only
     { player_data := [("Alice",
         { holes := "18", busy := "Light", transport := "Cart", players := "1",
           start := { day := 0, minute := 540 }, endT := none })],
       log := [], status := "" }
     "Alice" { day := 0, minute := 600 }
     { holes := "18", busy := "Light", transport := "Cart", players := "1",
       start := { day := 0, minute := 540 }, endT := none }
     (by decide) (by decide)
     ⟨[{ date := 0, name := "Eve", groupSize := 2, transport := "Cart",
         start := { day := 0, sec := 32400, usec := 0 } }], []⟩ 0 ⟨0, 40000, 0⟩
     { date := 0, name := "Eve", groupSize := 2, transport := "Cart",
       start := { day := 0, sec := 32400, usec := 0 } }
     (by decide) TimeTrack.TkOp.refresh ⟨[], [], ""⟩ WebApp.SOp.readOnly ⟨[], []⟩⟩

/-! Claim C8. -/

/-- C8: a manual start combines the requested clock time with the current
calendar day.  to_24h maps 12 AM to hour 0 and 12 PM to hour 12; the web
manual-start handler appends a row dated today whose start time is today's
date at the converted clock time; the desktop manual handler stores the
converted clock time on now's calendar day; and no comparison with the
current moment occurs: the desktop result is unchanged under any change of
the current time of day, so a requested time earlier than now is accepted
as a start in the past on the same day, never on a different date. -/
theorem C8_manual_time (w : WebApp.SheetState) (nm : String) (g : Int)
    (tr : String) (h12 m : Nat) (ap : String) (today : Int)
    (hn : pyStrip nm ≠ "")
    (s : TimeTrack.TkState)
    (rawName hourStr minuteStr ampm holes busy transport players : String)
    (nowA nowB : TimeTrack.CivilMin) (hday : nowA.day = nowB.day)
    (hname : pyStrip rawName ≠ "")
    (hh : pyIsDigit (pyStrip hourStr) = true)
    (hm2 : pyIsDigit (pyStrip minuteStr) = true)
    (hmin : strToNat (pyStrip minuteStr) ≤ 59) :
    (∀ m2 : Nat, WebApp.to_24h 12 m2 "AM" = (0, m2)) ∧
    (∀ m2 : Nat, WebApp.to_24h 12 m2 "PM" = (12, m2)) ∧
    (WebApp.startManualHandler w nm g tr h12 m ap today).active =
      w.active ++
        [{ date := today, name := pyStrip nm, groupSize := g, transport := tr,
           start := { day := today,
                      sec := (h12 % 12 +
                        (if pyUpper ap = "PM" then 12 else 0)) * 3600 + m * 60,
                      usec := 0 } }] ∧
    TimeTrack.start_round_manual s rawName hourStr minuteStr ampm
        holes busy transport players nowA =
      .ok { player_data :=
              TimeTrack.dictSet s.player_data (pyStrip rawName)
                { holes := holes, busy := busy, transport := transport,
                  players := players,
                  start := { day := nowA.day,
                             minute := (strToNat (pyStrip hourStr) % 12 +
                               (if ampm = "PM" then 12 else 0)) * 60 +
                               strToNat (pyStrip minuteStr) },
                  endT := none },
            log := s.log,
            status := "Manual started round for " ++ pyStrip rawName } ∧
    TimeTrack.start_round_manual s rawName hourStr minuteStr ampm
        holes busy transport players nowA =
      TimeTrack.start_round_manual s rawName hourStr minuteStr ampm
        holes busy transport players nowB := by
  have hb : strToNat (pyStrip hourStr) % 12 +
      (if ampm = "PM" then 12 else 0) ≤ 23 := by
    have h1 : strToNat (pyStrip hourStr) % 12 < 12 :=
      Nat.mod_lt _ (by omega)
    split <;> omega
  have hgen : ∀ nw : TimeTrack.CivilMin,
      TimeTrack.start_round_manual s rawName hourStr minuteStr ampm
        holes busy transport players nw =
      .ok { player_data :=
              TimeTrack.dictSet s.player_data (pyStrip rawName)
                { holes := holes, busy := busy, transport := transport,
                  players := players,
                  start := { day := nw.day,
                             minute := (strToNat (pyStrip hourStr) % 12 +
                               (if ampm = "PM" then 12 else 0)) * 60 +
                               strToNat (pyStrip minuteStr) },
                  endT := none },
            log := s.log,
            status := "Manual started round for " ++ pyStrip rawName } := by
    intro nw
    simp [TimeTrack.start_round_manual, TimeTrack.datetimeReplace,
      hname, hh, hm2, hmin, hb]
  refine ⟨fun m2 => rfl, fun m2 => rfl, ?_, hgen nowA, ?_⟩
  · simp [WebApp.startManualHandler, WebApp.to_24h, WebApp.combine_today,
      WebApp.append_active, WebApp.isoformat, hn]
  · rw [hgen nowA, hgen nowB, hday]

/-- C8 witness: the theorem at concrete inputs, with two different current
times of day on the same calendar day, one of them after the requested
manual time. -/
theorem C8_witness :
    pyStrip "Gil" ≠ "" ∧
    ((⟨7, 900⟩ : TimeTrack.CivilMin).day = (⟨7, 100⟩ : TimeTrack.CivilMin).day) ∧
    pyStrip "Hal" ≠ "" ∧
    pyIsDigit (pyStrip "12") = true ∧
    pyIsDigit (pyStrip "05") = true ∧
    strToNat (pyStrip "05") ≤ 59 ∧
    ((∀ m2 : Nat, WebApp.to_24h 12 m2 "AM" = (0, m2)) ∧
     (∀ m2 : Nat, WebApp.to_24h 12 m2 "PM" = (12, m2)) ∧
     (WebApp.startManualHandler ⟨[], []⟩ "Gil" 3 "Cart" 12 30 "PM" 7).active =
       (⟨[], []⟩ : WebApp.SheetState).active ++
         [{ date := 7, name := pyStrip "Gil", groupSize := 3, transport := "Cart",
            start := { day := 7,
                       sec := (12 % 12 +
                         (if pyUpper "PM" = "PM" then 12 else 0)) * 3600 + 30 * 60,
                       usec := 0 } }] ∧
     TimeTrack.start_round_manual ⟨[], [], ""⟩ "Hal" "12" "05" "AM"
         "18" "Light" "Cart" "1" ⟨7, 900⟩ =
       .ok { player_data :=
               TimeTrack.dictSet [] (pyStrip "Hal")
                 { holes := "18", busy := "Light", transport := "Cart",
                   players := "1",
                   start := { day := 7,
                              minute := (strToNat (pyStrip "12") % 12 +
                                (if "AM" = "PM" then 12 else 0)) * 60 +
                                strToNat (pyStrip "05") },
                   endT := none },
             log := [],
             status := "Manual started round for " ++ pyStrip "Hal" } ∧
     TimeTrack.start_round_manual ⟨[], [], ""⟩ "Hal" "12" "05" "AM"
         "18" "Light" "Cart" "1" ⟨7, 900⟩ =
       TimeTrack.start_round_manual ⟨[], [], ""⟩ "Hal" "12" "05" "AM"
         "18" "Light" "Cart" "1" ⟨7, 100⟩) :=
  ⟨by decide, rfl, by decide, by decide, by decide, by decide,
   C8_manual_time ⟨[], []⟩ "Gil" 3 "Cart" 12 30 "PM" 7 (by decide)
     ⟨[], [], ""⟩ "Hal" "12" "05" "AM" "18" "Light" "Cart" "1"
     ⟨7, 900⟩ ⟨7, 100⟩ rfl (by decide) (by decide) (by decide) (by decide)⟩
